import Mathlib

/-!
Shallow embedding of the core of the Flik repository (`app.go`): the modal
command processor (`ProcessKeyPress` and its per-mode dispatchers), the hotkey
lifecycle (`setupHotkey`, the listener debounce loop, `shutdownHotkey`), and
the `strconv.Atoi` / `strconv.Itoa` parsing the processor relies on.

Side effects (log calls, collaborator invocations, window hide) are recorded
as an explicit effect trace; collaborator outcomes (space / display mover
errors, permission check result, registration errors, timeouts) are supplied
by an environment of oracles, since in Go they come from the OS.
-/

/-- `AppMode` from `app.go`: `main` / `window` / `display`. -/
inductive AppMode where
  | AppModeMain
  | AppModeWindow
  | AppModeDisplay
deriving DecidableEq, Repr

export AppMode (AppModeMain AppModeWindow AppModeDisplay)

/-- `HotkeyStatus` from `app.go`: `disabled` / `enabled` / `failed` / `pending`. -/
inductive HotkeyStatus where
  | HotkeyStatusDisabled
  | HotkeyStatusEnabled
  | HotkeyStatusFailed
  | HotkeyStatusPending
deriving DecidableEq, Repr

export HotkeyStatus (HotkeyStatusDisabled HotkeyStatusEnabled HotkeyStatusFailed HotkeyStatusPending)

/-- `LogLevel` from `app.go`. -/
inductive LogLevel where
  | LogLevelInfo
  | LogLevelWarn
  | LogLevelError
deriving DecidableEq, Repr

export LogLevel (LogLevelInfo LogLevelWarn LogLevelError)

/-- The fields of the Go `App` struct that the modal command processor
(`ProcessKeyPress`) reads and mutates: the pending digit buffer and the
current mode.  The hotkey-lifecycle fields are modelled separately. -/
structure App where
  numberBuffer : String
  currentMode : AppMode
deriving DecidableEq, Repr

/-- The processor-relevant initialization done by `NewApp` in `app.go`:
empty buffer, `Main` mode. -/
def NewApp : App := { numberBuffer := "", currentMode := AppModeMain }

/-- Observable side effects of one `ProcessKeyPress` call: log lines (with
their level), collaborator invocations with their reported outcome, and the
window-hide request. -/
inductive Effect where
  | log (lvl : LogLevel) (msg : String)
  | toggleMute
  | moveToSpace (dir : String) (ok : Bool)
  | moveToDisplay (dir : String) (ok : Bool)
  | windowHide
deriving DecidableEq, Repr

/-- Environment of collaborator oracles: the result of the i-th
`spacesManager.MoveToSpace` call and of the i-th `displayMover.MoveToDisplay`
call within one command (`true` = no error). -/
structure Env where
  spaceOk : Nat → Bool
  displayOk : Nat → Bool

/-- Numeric value of an ASCII digit character (`c - '0'` when `'0' ≤ c ≤ '9'`). -/
def digitVal (c : Char) : Option Nat :=
  if '0' ≤ c ∧ c ≤ '9' then some (c.toNat - '0'.toNat) else none

/-- Accumulating base-10 parse of a character list; `none` on the first
non-digit character (mirrors the digit loop of Go `strconv.ParseInt`). -/
def parseDigitsAux : Nat → List Char → Option Nat
  | acc, [] => some acc
  | acc, c :: cs =>
    match digitVal c with
    | some d => parseDigitsAux (acc * 10 + d) cs
    | none => none

/-- Base-10 parse of a non-empty all-digit character list. -/
def parseDigits (cs : List Char) : Option Nat :=
  if cs.isEmpty then none else parseDigitsAux 0 cs

/-- Largest Go `int` value (64-bit). -/
def maxInt64 : Int := 2 ^ 63 - 1

/-- Absolute value of the smallest Go `int` value (64-bit). -/
def minInt64Abs : Int := 2 ^ 63

namespace strconv

/-- Model of Go `strconv.Atoi`: optional single leading `+`/`-` sign, then a
non-empty run of ASCII digits forming the whole string; `none` on empty
input, any other character, or a value outside the 64-bit `int` range
(Go returns a non-nil error in exactly those cases). -/
def Atoi (s : String) : Option Int :=
  match s.data with
  | [] => none
  | c :: cs =>
    if c = '+' then
      (parseDigits cs).bind (fun n => if (n : Int) ≤ maxInt64 then some (n : Int) else none)
    else if c = '-' then
      (parseDigits cs).bind (fun n => if (n : Int) ≤ minInt64Abs then some (-(n : Int)) else none)
    else
      (parseDigits (c :: cs)).bind (fun n => if (n : Int) ≤ maxInt64 then some (n : Int) else none)

/-- Model of Go `strconv.Itoa`: decimal string of an integer. -/
def Itoa (n : Int) : String := toString n

end strconv

/-- The repeat-count computation at the top of `ProcessKeyPress`
(`app.go` lines 412-418): start from 1; if the buffer is non-empty and
parses to a positive integer, use that value. -/
def computeCount (buf : String) : Int :=
  if buf ≠ "" then
    match strconv.Atoi buf with
    | some c => if c > 0 then c else 1
    | none => 1
  else 1

/-- The `for i := 0; i < count; i++` navigation loop shared by the window and
display mode handlers: call the mover for each repetition, but on the first
call that reports an error, log it and break.  `mk b` is the trace entry for
a mover call with outcome `b`; the first argument is the remaining repetition
count, the second the index of the next call. -/
def moveLoop (ok : Nat → Bool) (mk : Bool → Effect) (errMsg : String) : Nat → Nat → List Effect
  | 0, _ => []
  | n + 1, i =>
    if ok i then mk true :: moveLoop ok mk errMsg n (i + 1)
    else [mk false, Effect.log LogLevelError errMsg]

/-- `processMainModeKey` from `app.go`: `w`/`d` switch mode and return without
hiding; `m` toggles mute then hides; `Escape` hides and clears the buffer;
anything else is logged as invalid with no state change. -/
def processMainModeKey (a : App) (key : String) (count : Int) : App × List Effect :=
  if key = "w" then
    ({ a with currentMode := AppModeWindow }, [Effect.log LogLevelInfo "switched to window mode"])
  else if key = "d" then
    ({ a with currentMode := AppModeDisplay }, [Effect.log LogLevelInfo "switched to display mode"])
  else if key = "m" then
    (a, [Effect.toggleMute, Effect.windowHide])
  else if key = "Escape" then
    ({ a with numberBuffer := "" }, [Effect.windowHide])
  else
    (a, [Effect.log LogLevelWarn "invalid key in main mode"])

/-- `processWindowModeKey` from `app.go`: `h`/`l` run the space-mover loop
`count` times (short-circuiting on error) then return to Main mode and hide;
`m` toggles mute then hides; `b`/`Escape` return to Main without hiding;
anything else is logged as invalid with no state change. -/
def processWindowModeKey (env : Env) (a : App) (key : String) (count : Int) : App × List Effect :=
  if key = "h" then
    ({ a with currentMode := AppModeMain },
      moveLoop env.spaceOk (Effect.moveToSpace "left") "failed to move to left space" count.toNat 0
        ++ [Effect.windowHide])
  else if key = "l" then
    ({ a with currentMode := AppModeMain },
      moveLoop env.spaceOk (Effect.moveToSpace "right") "failed to move to right space" count.toNat 0
        ++ [Effect.windowHide])
  else if key = "m" then
    (a, [Effect.toggleMute, Effect.windowHide])
  else if key = "b" ∨ key = "Escape" then
    ({ a with currentMode := AppModeMain }, [Effect.log LogLevelInfo "returned to main mode"])
  else
    (a, [Effect.log LogLevelWarn "invalid key in window mode"])

/-- `processDisplayModeKey` from `app.go`: same shape as the window handler,
with the display mover as collaborator. -/
def processDisplayModeKey (env : Env) (a : App) (key : String) (count : Int) : App × List Effect :=
  if key = "h" then
    ({ a with currentMode := AppModeMain },
      moveLoop env.displayOk (Effect.moveToDisplay "left") "failed to move to left display" count.toNat 0
        ++ [Effect.windowHide])
  else if key = "l" then
    ({ a with currentMode := AppModeMain },
      moveLoop env.displayOk (Effect.moveToDisplay "right") "failed to move to right display" count.toNat 0
        ++ [Effect.windowHide])
  else if key = "m" then
    (a, [Effect.toggleMute, Effect.windowHide])
  else if key = "b" ∨ key = "Escape" then
    ({ a with currentMode := AppModeMain }, [Effect.log LogLevelInfo "returned to main mode"])
  else
    (a, [Effect.log LogLevelWarn "invalid key in display mode"])

/-- The mode dispatch at the bottom of `ProcessKeyPress` (`app.go` lines
420-428), taking the already-computed repeat count. -/
def dispatchKey (env : Env) (a : App) (key : String) (count : Int) : App × List Effect :=
  match a.currentMode with
  | AppModeMain => processMainModeKey a key count
  | AppModeWindow => processWindowModeKey env a key count
  | AppModeDisplay => processDisplayModeKey env a key count

/-- `ProcessKeyPress` from `app.go`: a token that `strconv.Atoi` parses is
appended (via `strconv.Itoa` of the parsed value) to `numberBuffer` and the
call returns immediately; otherwise the repeat count is computed from the
buffer, the buffer is cleared, and the key is dispatched by mode. -/
def ProcessKeyPress (env : Env) (a : App) (key : String) : App × List Effect :=
  match strconv.Atoi key with
  | some num => ({ a with numberBuffer := a.numberBuffer ++ strconv.Itoa num }, [])
  | none =>
    let count := computeCount a.numberBuffer
    dispatchKey env { a with numberBuffer := "" } key count

/-- Sequential processing of a list of key tokens, concatenating the
effect traces. -/
def processKeys (env : Env) (a : App) : List String → App × List Effect
  | [] => (a, [])
  | k :: ks =>
    let r := ProcessKeyPress env a k
    let rest := processKeys env r.1 ks
    (rest.1, r.2 ++ rest.2)

/-- The ten single-digit key tokens. -/
def digitTokens : List String :=
  ["0", "1", "2", "3", "4", "5", "6", "7", "8", "9"]

/-- Concatenation of a list of tokens. -/
def joinAll : List String → String
  | [] => ""
  | d :: ds => d ++ joinAll ds

/-- Numeric value of the digit string formed by concatenating single-digit
tokens (`tokensVal ["1","2"] = 12`). -/
def tokensVal (ds : List String) : Nat :=
  ds.foldl (fun n d => n * 10 + ((d.data.headD '0').toNat - '0'.toNat)) 0

/-- Oracles for the nondeterministic outcomes inside `setupHotkey`:
the permission check result (`none` = the 30s setup timeout fires before the
check completes), whether the i-th `hk.Register()` attempt returns an error,
and whether the setup timeout fires at the pre-attempt check or during the
backoff delay following attempt i. -/
structure SetupEnv where
  permCheck : Option Bool
  regFails : Nat → Bool
  timedOutBeforeAttempt : Nat → Bool
  timedOutDuringDelay : Nat → Bool

/-- Outcome of the registration retry loop of `setupHotkey` (`app.go` lines
163-202): number of `hk.Register()` calls made, completed backoff delays in
seconds, the status assigned, whether `showPermissionError` was called,
whether the hotkey instance was stored, and the log lines emitted. -/
structure RegOutcome where
  attempts : Nat
  slept : List Nat
  status : HotkeyStatus
  errorDialog : Bool
  hkStored : Bool
  logs : List (LogLevel × String)
deriving DecidableEq, Repr

/-- The `for attempt := 0; attempt < maxRetries; attempt++` registration loop
with exponential backoff.  First argument is the remaining number of
attempts (`maxRetries - attempt`), then the current attempt index and the
current `retryDelay` in seconds.  Each iteration: check the setup timeout;
try to register (break to Enabled on success); on the last attempt fail hard
with a user-visible error; otherwise sleep the backoff delay (cancellable by
the setup timeout) and double it. -/
def regLoop (env : SetupEnv) : Nat → Nat → Nat → RegOutcome
  | 0, _, _ => ⟨0, [], HotkeyStatusPending, false, false, []⟩
  | fuel + 1, i, d =>
    if env.timedOutBeforeAttempt i then
      ⟨0, [], HotkeyStatusFailed, false, false,
        [(LogLevelError, "hotkey setup timed out during registration, continuing without hotkey support")]⟩
    else if env.regFails i = false then
      ⟨1, [], HotkeyStatusEnabled, false, true,
        [(LogLevelInfo, "global hotkey (Ctrl+Space) registered successfully")]⟩
    else if fuel = 0 then
      ⟨1, [], HotkeyStatusFailed, true, false,
        [(LogLevelWarn, "hotkey registration attempt failed"),
         (LogLevelError, "failed to register hotkey after 3 attempts, continuing without hotkey support")]⟩
    else if env.timedOutDuringDelay i then
      ⟨1, [], HotkeyStatusFailed, false, false,
        [(LogLevelWarn, "hotkey registration attempt failed"),
         (LogLevelError, "hotkey setup cancelled during retry delay")]⟩
    else
      let r := regLoop env fuel (i + 1) (d * 2)
      ⟨1 + r.attempts, d :: r.slept, r.status, r.errorDialog, r.hkStored,
        (LogLevelWarn, "hotkey registration attempt failed") :: r.logs⟩

/-- Observable outcome of one `setupHotkey` run: the sequence of statuses
assigned to `a.hotkeyStatus` (the field starts as `Disabled` from `NewApp`),
the log lines, the number of registration attempts, the backoff delays slept,
the delays (in seconds) of scheduled non-blocking permission requests,
whether `showPermissionError` was called, and whether the listener loop was
entered. -/
structure SetupResult where
  statusTrace : List HotkeyStatus
  logs : List (LogLevel × String)
  attempts : Nat
  slept : List Nat
  permRequestDelays : List Nat
  errorDialog : Bool
  listenerStarted : Bool
deriving DecidableEq, Repr

/-- `setupHotkey` from `app.go`: set status `Pending`; run the permission
check bounded by the setup timeout (timeout ⇒ log error, status `Failed`,
return); on denial log a warning, set status `Disabled`, schedule one
non-blocking permission request delayed by 2 seconds, and return; on grant
run the registration retry loop (`maxRetries = 3`, initial delay 1s) and, if
it ends `Enabled`, start the listener. -/
def setupHotkey (env : SetupEnv) : SetupResult :=
  match env.permCheck with
  | none =>
    ⟨[HotkeyStatusPending, HotkeyStatusFailed],
      [(LogLevelError, "permission check timed out, continuing without hotkey support")],
      0, [], [], false, false⟩
  | some false =>
    ⟨[HotkeyStatusPending, HotkeyStatusDisabled],
      [(LogLevelWarn, "accessibility permissions not granted, app will continue without hotkeys")],
      0, [], [2], false, false⟩
  | some true =>
    let r := regLoop env 3 0 1
    ⟨[HotkeyStatusPending, r.status], r.logs, r.attempts, r.slept, [],
      r.errorDialog, r.hkStored && (r.status = HotkeyStatusEnabled : Bool)⟩

/-- The debounce threshold of the listener loop: 200ms in nanoseconds. -/
def debounceNs : Int := 200000000

/-- The `hotkeyInstance.Keydown()` branch of `startHotkeyListener` folded over
a list of key-down timestamps (nanoseconds, strictly increasing in any real
trace).  State is `lastHotkeyTime`; a key-down less than 200ms after the last
accepted activation is dropped with no state change, otherwise the timestamp
is updated and the activation handler runs (window shown).  Returns the final
`lastHotkeyTime` and the timestamps of the accepted activations, in order. -/
def startHotkeyListener : List Int → Int → Int × List Int
  | [], last => (last, [])
  | t :: ts, last =>
    if t - last < debounceNs then startHotkeyListener ts last
    else
      let r := startHotkeyListener ts t
      (r.1, t :: r.2)

/-- The hotkey-lifecycle fields of the Go `App` struct read by
`shutdownHotkey`: whether `hotkeyInstance` is non-nil, whether the buffered
(capacity 1) `hotkeyShutdown` channel currently holds a signal, and the
status. -/
structure HKState where
  hkPresent : Bool
  chanFull : Bool
  status : HotkeyStatus
deriving DecidableEq, Repr

/-- `shutdownHotkey` from `app.go`: if no hotkey instance is stored (setup
never completed, or shutdown already ran) do nothing; otherwise send on the
shutdown channel without blocking (a full channel drops the send but remains
full), call `Unregister` once, clear the instance, and set status `Disabled`.
Returns the new state and the number of `Unregister` calls made. -/
def shutdownHotkey (s : HKState) : HKState × Nat :=
  if s.hkPresent then
    (⟨false, true, HotkeyStatusDisabled⟩, 1)
  else (s, 0)

lemma process_digit_key (env : Env) (a : App) (k : String) (n : Int)
    (hk : strconv.Atoi k = some n) (hi : strconv.Itoa n = k) :
    ProcessKeyPress env a k = ({ a with numberBuffer := a.numberBuffer ++ k }, []) := by
  simp [ProcessKeyPress, hk, hi]

lemma digit_token_process (env : Env) (a : App) (d : String) (h : d ∈ digitTokens) :
    ProcessKeyPress env a d = ({ a with numberBuffer := a.numberBuffer ++ d }, []) := by
  simp only [digitTokens] at h
  fin_cases h
  · exact process_digit_key env a "0" 0 (by decide) (by decide)
  · exact process_digit_key env a "1" 1 (by decide) (by decide)
  · exact process_digit_key env a "2" 2 (by decide) (by decide)
  · exact process_digit_key env a "3" 3 (by decide) (by decide)
  · exact process_digit_key env a "4" 4 (by decide) (by decide)
  · exact process_digit_key env a "5" 5 (by decide) (by decide)
  · exact process_digit_key env a "6" 6 (by decide) (by decide)
  · exact process_digit_key env a "7" 7 (by decide) (by decide)
  · exact process_digit_key env a "8" 8 (by decide) (by decide)
  · exact process_digit_key env a "9" 9 (by decide) (by decide)

lemma processKeys_digits (env : Env) (a : App) (ds : List String)
    (h : ∀ d ∈ ds, d ∈ digitTokens) :
    processKeys env a ds = ({ a with numberBuffer := a.numberBuffer ++ joinAll ds }, []) := by
  induction ds generalizing a with
  | nil => simp [processKeys, joinAll]
  | cons d ds ih =>
    have hd := h d (by simp)
    have hds : ∀ x ∈ ds, x ∈ digitTokens := fun x hx => h x (by simp [hx])
    simp [processKeys, digit_token_process env a d hd, joinAll, ih _ hds, String.append_assoc]

lemma digit_token_data (d : String) (h : d ∈ digitTokens) :
    ∃ c, d.data = [c] ∧ digitVal c = some (c.toNat - '0'.toNat) ∧ c ≠ '+' ∧ c ≠ '-' := by
  simp only [digitTokens] at h
  fin_cases h
  · exact ⟨'0', by decide, by decide, by decide, by decide⟩
  · exact ⟨'1', by decide, by decide, by decide, by decide⟩
  · exact ⟨'2', by decide, by decide, by decide, by decide⟩
  · exact ⟨'3', by decide, by decide, by decide, by decide⟩
  · exact ⟨'4', by decide, by decide, by decide, by decide⟩
  · exact ⟨'5', by decide, by decide, by decide, by decide⟩
  · exact ⟨'6', by decide, by decide, by decide, by decide⟩
  · exact ⟨'7', by decide, by decide, by decide, by decide⟩
  · exact ⟨'8', by decide, by decide, by decide, by decide⟩
  · exact ⟨'9', by decide, by decide, by decide, by decide⟩

lemma parseDigitsAux_joinAll (ds : List String) : ∀ (acc : Nat),
    (∀ d ∈ ds, d ∈ digitTokens) →
    parseDigitsAux acc (joinAll ds).data
      = some (ds.foldl (fun n d => n * 10 + ((d.data.headD '0').toNat - '0'.toNat)) acc) := by
  induction ds with
  | nil => intro acc _; simp [joinAll, parseDigitsAux]
  | cons d ds ih =>
    intro acc h
    obtain ⟨c, h1, h2, _, _⟩ := digit_token_data d (h d (by simp))
    have hds : ∀ x ∈ ds, x ∈ digitTokens := fun x hx => h x (by simp [hx])
    simp only [joinAll, String.data_append, h1, List.cons_append, List.nil_append,
      parseDigitsAux, h2, List.foldl_cons, List.headD_cons]
    exact ih _ hds

lemma joinAll_cons_data (d : String) (ds : List String) (c : Char) (h1 : d.data = [c]) :
    (joinAll (d :: ds)).data = c :: (joinAll ds).data := by
  simp [joinAll, h1]

lemma atoi_joinAll (ds : List String) (h : ∀ d ∈ ds, d ∈ digitTokens) (hne : ds ≠ []) :
    strconv.Atoi (joinAll ds)
      = if (tokensVal ds : Int) ≤ maxInt64 then some ((tokensVal ds : Int)) else none := by
  match ds, hne with
  | d :: ds, _ =>
    obtain ⟨c, h1, h2, h3, h4⟩ := digit_token_data d (h d (by simp))
    have hdata := joinAll_cons_data d ds c h1
    have hparse := parseDigitsAux_joinAll (d :: ds) 0 h
    have hpd : parseDigits (c :: (joinAll ds).data)
        = parseDigitsAux 0 (c :: (joinAll ds).data) := by
      simp [parseDigits]
    simp only [strconv.Atoi, hdata, h3, h4, if_false, if_neg, hpd]
    rw [← hdata, hparse, Option.some_bind]
    rfl

lemma computeCount_eval (buf : String) (v : Int) (hne : buf ≠ "")
    (h : strconv.Atoi buf = some v) :
    computeCount buf = if 0 < v then v else 1 := by
  rw [computeCount, if_pos hne, h]

lemma computeCount_of_none (buf : String) (h : strconv.Atoi buf = none) :
    computeCount buf = 1 := by
  by_cases hne : buf = ""
  · rw [computeCount, if_neg (by simp [hne])]
  · rw [computeCount, if_pos hne, h]

lemma computeCount_joinAll (ds : List String) (h : ∀ d ∈ ds, d ∈ digitTokens) :
    computeCount (joinAll ds)
      = if 0 < tokensVal ds ∧ (tokensVal ds : Int) ≤ maxInt64 then (tokensVal ds : Int) else 1 := by
  rcases ds with _ | ⟨d, ds⟩
  · simp [joinAll, computeCount, tokensVal]
  · obtain ⟨c, h1, _, _, _⟩ := digit_token_data d (h d (by simp))
    have hdata := joinAll_cons_data d ds c h1
    have hne : joinAll (d :: ds) ≠ "" := by
      intro hcon
      have hd : (joinAll (d :: ds)).data = [] := by rw [hcon]
      rw [hdata] at hd
      exact List.cons_ne_nil _ _ hd
    by_cases hle : (tokensVal (d :: ds) : Int) ≤ maxInt64
    · rw [computeCount_eval _ _ hne (by rw [atoi_joinAll (d :: ds) h (by simp), if_pos hle])]
      by_cases hpos : 0 < tokensVal (d :: ds)
      · rw [if_pos (by exact_mod_cast hpos), if_pos ⟨hpos, hle⟩]
      · have h0 : tokensVal (d :: ds) = 0 := Nat.eq_zero_of_not_pos hpos
        simp [h0]
    · rw [computeCount_of_none _ (by rw [atoi_joinAll (d :: ds) h (by simp), if_neg hle]),
        if_neg (fun hc => hle hc.2)]

lemma dispatchKey_buffer_empty (env : Env) (a : App) (key : String) (count : Int)
    (h : a.numberBuffer = "") :
    (dispatchKey env a key count).1.numberBuffer = "" := by
  obtain ⟨nb, mode⟩ := a
  simp only at h
  subst h
  cases mode <;>
    simp only [dispatchKey, processMainModeKey, processWindowModeKey, processDisplayModeKey] <;>
    split_ifs <;> simp

/-- C1: starting from an empty buffer, a sequence of single-digit tokens
accumulates positionally into `numberBuffer`; at the following non-digit
command token the dispatched repeat count is the concatenated value when it
is positive (and parseable), and 1 otherwise (empty buffer, value 0, or
overflow), never 0; and the buffer is empty again right after the command. -/
theorem processKeyPress_repeat_count_C1 (env : Env) (a : App) (ds : List String) (cmd : String)
    (hbuf : a.numberBuffer = "")
    (hds : ∀ d ∈ ds, d ∈ digitTokens)
    (hcmd : strconv.Atoi cmd = none) :
    (processKeys env a ds).1.numberBuffer = joinAll ds ∧
    (processKeys env a ds).1.currentMode = a.currentMode ∧
    ProcessKeyPress env (processKeys env a ds).1 cmd
      = dispatchKey env { (processKeys env a ds).1 with numberBuffer := "" } cmd
          (computeCount (joinAll ds)) ∧
    computeCount (joinAll ds)
      = (if 0 < tokensVal ds ∧ (tokensVal ds : Int) ≤ maxInt64 then (tokensVal ds : Int) else 1) ∧
    1 ≤ computeCount (joinAll ds) ∧
    (ProcessKeyPress env (processKeys env a ds).1 cmd).1.numberBuffer = "" := by
  have hp := processKeys_digits env a ds hds
  have hb1 : (processKeys env a ds).1.numberBuffer = joinAll ds := by
    rw [hp]; simp [hbuf]
  have hcc := computeCount_joinAll ds hds
  have hdisp : ProcessKeyPress env (processKeys env a ds).1 cmd
      = dispatchKey env { (processKeys env a ds).1 with numberBuffer := "" } cmd
          (computeCount (joinAll ds)) := by
    simp only [ProcessKeyPress, hcmd, hb1]
  refine ⟨hb1, by rw [hp], hdisp, hcc, ?_, ?_⟩
  · rw [hcc]
    split_ifs with hc
    · exact_mod_cast hc.1
    · exact le_refl 1
  · rw [hdisp]
    exact dispatchKey_buffer_empty env _ cmd _ rfl

/-- Environment whose collaborators always succeed. -/
def envAllOk : Env := ⟨fun _ => true, fun _ => true⟩

/-- Environment where the display mover succeeds on its first call and fails
on every later one. -/
def envSecondDisplayFails : Env := ⟨fun _ => true, fun i => decide (i = 0)⟩

/-- The key tokens recognized by each mode (every other non-digit token falls
into the `default` arm of the corresponding `switch`). -/
def recognizedKeys : AppMode → List String
  | AppModeMain => ["w", "d", "m", "Escape"]
  | AppModeWindow => ["h", "l", "m", "b", "Escape"]
  | AppModeDisplay => ["h", "l", "m", "b", "Escape"]

/-- The warning message of the `default` arm of each mode handler. -/
def invalidKeyMsg : AppMode → String
  | AppModeMain => "invalid key in main mode"
  | AppModeWindow => "invalid key in window mode"
  | AppModeDisplay => "invalid key in display mode"

/-- C2: in Main mode, `w` and `d` switch to WindowNav / DisplayNav and emit
only an info log (no hide, no collaborator, no command executed with the
pending count), for every buffer value; in WindowNav or DisplayNav, `b` and
`Escape` return to Main, again with only an info log. -/
theorem processKeyPress_mode_transitions_C2 (env : Env) (a : App) :
    (a.currentMode = AppModeMain →
      ProcessKeyPress env a "w"
        = ({ a with numberBuffer := "", currentMode := AppModeWindow },
            [Effect.log LogLevelInfo "switched to window mode"]) ∧
      ProcessKeyPress env a "d"
        = ({ a with numberBuffer := "", currentMode := AppModeDisplay },
            [Effect.log LogLevelInfo "switched to display mode"])) ∧
    ((a.currentMode = AppModeWindow ∨ a.currentMode = AppModeDisplay) →
      ∀ k, k = "b" ∨ k = "Escape" →
        ProcessKeyPress env a k
          = ({ a with numberBuffer := "", currentMode := AppModeMain },
              [Effect.log LogLevelInfo "returned to main mode"])) := by
  refine ⟨fun h => ⟨?_, ?_⟩, fun h k hk => ?_⟩
  · simp [ProcessKeyPress, show strconv.Atoi "w" = none from by decide, dispatchKey, h,
      processMainModeKey]
  · simp [ProcessKeyPress, show strconv.Atoi "d" = none from by decide, dispatchKey, h,
      processMainModeKey]
  · rcases hk with rfl | rfl <;> rcases h with h | h <;>
      simp [ProcessKeyPress, show strconv.Atoi "b" = none from by decide,
        show strconv.Atoi "Escape" = none from by decide, dispatchKey, h,
        processWindowModeKey, processDisplayModeKey]

theorem processKeyPress_mode_transitions_C2_witness :
    ProcessKeyPress envAllOk { numberBuffer := "5", currentMode := AppModeMain } "w"
      = ({ numberBuffer := "", currentMode := AppModeWindow },
          [Effect.log LogLevelInfo "switched to window mode"]) :=
  ((processKeyPress_mode_transitions_C2 envAllOk
      { numberBuffer := "5", currentMode := AppModeMain }).1 rfl).1

/-- C3 counterexample: with pending buffer `"3"` in Main mode, the invalid
token `"x"` does mutate state — the buffer is cleared, so it is not unchanged
as the claim states. -/
theorem processKeyPress_invalid_key_C3_counterexample :
    (ProcessKeyPress envAllOk { numberBuffer := "3", currentMode := AppModeMain } "x").1.numberBuffer
      ≠ ({ numberBuffer := "3", currentMode := AppModeMain } : App).numberBuffer := by
  decide

/-- C3 amended: an unrecognized non-digit token leaves the mode unchanged,
invokes no collaborator, hides no window, and is logged at warning level —
but `numberBuffer` is cleared (consumed), not left unchanged. -/
theorem processKeyPress_invalid_key_C3 (env : Env) (a : App) (key : String)
    (hnum : strconv.Atoi key = none)
    (hinv : key ∉ recognizedKeys a.currentMode) :
    ProcessKeyPress env a key
      = ({ a with numberBuffer := "" },
          [Effect.log LogLevelWarn (invalidKeyMsg a.currentMode)]) := by
  obtain ⟨nb, mode⟩ := a
  cases mode <;>
    simp only [recognizedKeys, List.mem_cons, List.mem_singleton, not_or,
      List.not_mem_nil, or_false] at hinv <;>
    simp [ProcessKeyPress, hnum, dispatchKey, processMainModeKey, processWindowModeKey,
      processDisplayModeKey, invalidKeyMsg, hinv.1, hinv.2.1, hinv.2.2.1, hinv.2.2.2]

theorem processKeyPress_invalid_key_C3_witness :
    ProcessKeyPress envAllOk { numberBuffer := "3", currentMode := AppModeMain } "x"
      = ({ numberBuffer := "", currentMode := AppModeMain },
          [Effect.log LogLevelWarn "invalid key in main mode"]) :=
  processKeyPress_invalid_key_C3 envAllOk
    { numberBuffer := "3", currentMode := AppModeMain } "x" (by decide) (by decide)

/-- C4: in DisplayNav mode with buffer `"2"`, token `l` when the second
display move fails: one successful move, the failing second call, the logged
error, mode back to Main, and the window hidden afterward (last effect). -/
theorem processKeyPress_display_failure_C4 (env : Env) (a : App)
    (h1 : a.currentMode = AppModeDisplay) (h2 : a.numberBuffer = "2")
    (h3 : env.displayOk 0 = true) (h4 : env.displayOk 1 = false) :
    ProcessKeyPress env a "l"
      = ({ a with numberBuffer := "", currentMode := AppModeMain },
          [Effect.moveToDisplay "right" true, Effect.moveToDisplay "right" false,
           Effect.log LogLevelError "failed to move to right display",
           Effect.windowHide]) := by
  have hc : computeCount a.numberBuffer = 2 := by rw [h2]; decide
  simp only [ProcessKeyPress, show strconv.Atoi "l" = none from by decide, hc, dispatchKey]
  rw [show ({ a with numberBuffer := "" } : App).currentMode = AppModeDisplay from h1]
  simp [processDisplayModeKey, moveLoop, h3, h4, show ((2 : Int).toNat = 2) from rfl]

theorem processKeyPress_display_failure_C4_witness :
    ProcessKeyPress envSecondDisplayFails
        { numberBuffer := "2", currentMode := AppModeDisplay } "l"
      = ({ numberBuffer := "", currentMode := AppModeMain },
          [Effect.moveToDisplay "right" true, Effect.moveToDisplay "right" false,
           Effect.log LogLevelError "failed to move to right display",
           Effect.windowHide]) :=
  processKeyPress_display_failure_C4 envSecondDisplayFails
    { numberBuffer := "2", currentMode := AppModeDisplay } rfl rfl (by decide) (by decide)

/-- C10: every token that Go `strconv.Atoi` accepts — multi-digit,
zero-padded or signed, not only single digits — is appended to the buffer as
the decimal representation of its parsed value, with no other state change
and no effects; and a buffer parsing to a non-positive value is coerced to
repeat count 1 when consumed. -/
theorem processKeyPress_numeric_tokens_C10 (env : Env) (a : App) (key : String) (n : Int)
    (h : strconv.Atoi key = some n) :
    ProcessKeyPress env a key
      = ({ a with numberBuffer := a.numberBuffer ++ strconv.Itoa n }, []) ∧
    strconv.Atoi "007" = some 7 ∧ strconv.Itoa 7 = "7" ∧
    strconv.Atoi "-5" = some (-5) ∧ strconv.Itoa (-5) = "-5" ∧
    strconv.Atoi "12" = some 12 ∧
    (∀ (b : String) (c : Int), strconv.Atoi b = some c → c ≤ 0 → computeCount b = 1) := by
  refine ⟨by simp [ProcessKeyPress, h], by decide, by decide, by decide, by decide, by decide, ?_⟩
  intro b c hb hc
  by_cases hne : b = ""
  · rw [hne, show strconv.Atoi "" = none from by decide] at hb
    cases hb
  · rw [computeCount_eval b c hne hb, if_neg (by omega)]

theorem processKeyPress_numeric_tokens_C10_witness :
    ProcessKeyPress envAllOk { numberBuffer := "", currentMode := AppModeMain } "007"
      = ({ numberBuffer := "7", currentMode := AppModeMain }, []) ∧
    computeCount "-5" = 1 := by
  have h := processKeyPress_numeric_tokens_C10 envAllOk
    { numberBuffer := "", currentMode := AppModeMain } "007" 7 (by decide)
  exact ⟨h.1.trans (by decide), h.2.2.2.2.2.2 "-5" (-5) (by decide) (by decide)⟩

/-- Initial value of the `hotkeyStatus` field assigned by `NewApp`. -/
def NewAppHotkeyStatus : HotkeyStatus := HotkeyStatusDisabled

/-- Setup environment in which permissions are granted, the first two
registration attempts fail and the third succeeds, with no setup timeout. -/
def envThirdTrySucceeds : SetupEnv :=
  ⟨some true, fun i => decide (i < 2), fun _ => false, fun _ => false⟩

/-- Setup environment in which the permission check never completes before
the setup timeout. -/
def envPermTimeout : SetupEnv := ⟨none, fun _ => true, fun _ => false, fun _ => false⟩

/-- Setup environment in which the permission check reports not granted. -/
def envPermDenied : SetupEnv := ⟨some false, fun _ => true, fun _ => false, fun _ => false⟩

/-- C5: with permissions granted and no setup timeout, registration is
attempted at most 3 times with backoff delays 1s then 2s; three failures end
in `Failed` with a user-visible error; two failures then a success end in
`Enabled` with total wait `≥ 1s + 2s` and the listener started. -/
theorem setupHotkey_retry_C5 (env : SetupEnv)
    (hperm : env.permCheck = some true)
    (hb : ∀ i, env.timedOutBeforeAttempt i = false)
    (hd : ∀ i, env.timedOutDuringDelay i = false) :
    (setupHotkey env).attempts ≤ 3 ∧
    ((setupHotkey env).slept = [] ∨ (setupHotkey env).slept = [1] ∨
      (setupHotkey env).slept = [1, 2]) ∧
    (env.regFails 0 = true ∧ env.regFails 1 = true ∧ env.regFails 2 = true →
      (setupHotkey env).statusTrace = [HotkeyStatusPending, HotkeyStatusFailed] ∧
      (setupHotkey env).errorDialog = true ∧
      (setupHotkey env).attempts = 3 ∧
      (setupHotkey env).listenerStarted = false) ∧
    (env.regFails 0 = true ∧ env.regFails 1 = true ∧ env.regFails 2 = false →
      (setupHotkey env).statusTrace = [HotkeyStatusPending, HotkeyStatusEnabled] ∧
      (setupHotkey env).slept = [1, 2] ∧
      1 + 2 ≤ (setupHotkey env).slept.sum ∧
      (setupHotkey env).listenerStarted = true) := by
  cases hf0 : env.regFails 0 <;> cases hf1 : env.regFails 1 <;> cases hf2 : env.regFails 2 <;>
    simp [setupHotkey, hperm, regLoop, hb 0, hb 1, hb 2, hd 0, hd 1, hf0, hf1, hf2]

theorem setupHotkey_retry_C5_witness :
    (setupHotkey envThirdTrySucceeds).statusTrace
      = [HotkeyStatusPending, HotkeyStatusEnabled] ∧
    (setupHotkey envThirdTrySucceeds).slept = [1, 2] ∧
    (setupHotkey envThirdTrySucceeds).listenerStarted = true := by
  have h := setupHotkey_retry_C5 envThirdTrySucceeds rfl (fun _ => rfl) (fun _ => rfl)
  have h4 := h.2.2.2 ⟨rfl, rfl, rfl⟩
  exact ⟨h4.1, h4.2.1, h4.2.2.2⟩

/-- C6 counterexample: when the permission check times out, `setupHotkey`
sets the status to `Failed`, not to `Disabled` as the claim states. -/
theorem setupHotkey_perm_timeout_C6_counterexample :
    (setupHotkey envPermTimeout).statusTrace = [HotkeyStatusPending, HotkeyStatusFailed] ∧
    (setupHotkey envPermTimeout).statusTrace ≠ [HotkeyStatusPending, HotkeyStatusDisabled] := by
  decide

/-- C6 amended: if the permission check does not complete before the setup
timeout, the status transitions to `Failed` (not `Disabled`), the timeout is
logged (at error level), and setup returns with no registration attempt. -/
theorem setupHotkey_perm_timeout_C6 (env : SetupEnv) (h : env.permCheck = none) :
    setupHotkey env
      = ⟨[HotkeyStatusPending, HotkeyStatusFailed],
          [(LogLevelError, "permission check timed out, continuing without hotkey support")],
          0, [], [], false, false⟩ ∧
    (LogLevelError, "permission check timed out, continuing without hotkey support")
      ∈ (setupHotkey env).logs ∧
    (setupHotkey env).attempts = 0 := by
  refine ⟨?_, ?_, ?_⟩ <;> simp [setupHotkey, h]

theorem setupHotkey_perm_timeout_C6_witness :
    (setupHotkey envPermTimeout).attempts = 0 ∧
    (LogLevelError, "permission check timed out, continuing without hotkey support")
      ∈ (setupHotkey envPermTimeout).logs :=
  ⟨(setupHotkey_perm_timeout_C6 envPermTimeout rfl).2.2,
   (setupHotkey_perm_timeout_C6 envPermTimeout rfl).2.1⟩

/-- C7: permission denied at startup ⇒ status goes Disabled (initial, from
`NewApp`) → Pending → Disabled, never `Failed`; no registration attempt is
made; exactly one delayed (2s) non-blocking permission request is
scheduled. -/
theorem setupHotkey_perm_denied_C7 (env : SetupEnv) (h : env.permCheck = some false) :
    NewAppHotkeyStatus = HotkeyStatusDisabled ∧
    (setupHotkey env).statusTrace = [HotkeyStatusPending, HotkeyStatusDisabled] ∧
    HotkeyStatusFailed ∉ (setupHotkey env).statusTrace ∧
    (setupHotkey env).attempts = 0 ∧
    (setupHotkey env).permRequestDelays = [2] ∧
    (setupHotkey env).listenerStarted = false := by
  refine ⟨rfl, ?_, ?_, ?_, ?_, ?_⟩ <;> simp [setupHotkey, h]

theorem setupHotkey_perm_denied_C7_witness :
    (setupHotkey envPermDenied).statusTrace = [HotkeyStatusPending, HotkeyStatusDisabled] ∧
    (setupHotkey envPermDenied).permRequestDelays = [2] :=
  ⟨(setupHotkey_perm_denied_C7 envPermDenied rfl).2.1,
   (setupHotkey_perm_denied_C7 envPermDenied rfl).2.2.2.2.1⟩

/-- C8: a key-down less than 200ms after `lastHotkeyTime` is dropped with no
activation and no timestamp update; of two key-downs where the first is
accepted, the second yields a second activation exactly when it is at least
200ms after the first. -/
theorem startHotkeyListener_debounce_C8 (last t0 t1 t2 : Int) (ts : List Int)
    (hacc : debounceNs ≤ t1 - last) :
    (t0 - last < debounceNs →
      startHotkeyListener (t0 :: ts) last = startHotkeyListener ts last) ∧
    (t2 - t1 < debounceNs → startHotkeyListener [t1, t2] last = (t1, [t1])) ∧
    (debounceNs ≤ t2 - t1 → startHotkeyListener [t1, t2] last = (t2, [t1, t2])) := by
  refine ⟨fun h => by simp [startHotkeyListener, h], fun h => ?_, fun h => ?_⟩
  · simp [startHotkeyListener, h, not_lt.mpr hacc]
  · simp [startHotkeyListener, not_lt.mpr hacc, not_lt.mpr h]

theorem startHotkeyListener_debounce_C8_witness :
    startHotkeyListener [300000000, 400000000] 0 = (300000000, [300000000]) ∧
    startHotkeyListener [300000000, 500000000] 0 = (500000000, [300000000, 500000000]) := by
  have h := startHotkeyListener_debounce_C8 0 0 300000000 400000000 [] (by decide)
  have h2 := startHotkeyListener_debounce_C8 0 0 300000000 500000000 [] (by decide)
  exact ⟨h.2.1 (by decide), h2.2.2 (by decide)⟩

/-- C9: `shutdownHotkey` with a stored hotkey signals the channel (leaving it
full whether or not the signal could be delivered), unregisters exactly once,
clears the handle and sets `Disabled`; with no stored hotkey (setup never
completed, or already shut down) it is a no-op, so a second call never
double-releases and the total number of `Unregister` calls over two
invocations is at most one. -/
theorem shutdownHotkey_idempotent_C9 (s : HKState) :
    (s.hkPresent = true →
      shutdownHotkey s = (⟨false, true, HotkeyStatusDisabled⟩, 1)) ∧
    (s.hkPresent = false → shutdownHotkey s = (s, 0)) ∧
    shutdownHotkey (shutdownHotkey s).1 = ((shutdownHotkey s).1, 0) ∧
    (shutdownHotkey s).2 + (shutdownHotkey (shutdownHotkey s).1).2 ≤ 1 := by
  obtain ⟨p, c, st⟩ := s
  cases p <;> simp [shutdownHotkey]

theorem shutdownHotkey_idempotent_C9_witness :
    shutdownHotkey ⟨true, false, HotkeyStatusEnabled⟩
      = (⟨false, true, HotkeyStatusDisabled⟩, 1) ∧
    shutdownHotkey (shutdownHotkey ⟨true, false, HotkeyStatusEnabled⟩).1
      = ((shutdownHotkey ⟨true, false, HotkeyStatusEnabled⟩).1, 0) := by
  have h := shutdownHotkey_idempotent_C9 ⟨true, false, HotkeyStatusEnabled⟩
  exact ⟨h.1 rfl, h.2.2.1⟩

theorem processKeyPress_repeat_count_C1_witness :
    (processKeys envAllOk NewApp ["1", "2"]).1.numberBuffer = "12" ∧
    computeCount "12" = 12 := by
  have h := processKeyPress_repeat_count_C1 envAllOk NewApp ["1", "2"] "l" rfl
    (by decide) (by decide)
  refine ⟨h.1.trans (by decide), ?_⟩
  rw [show ("12" : String) = joinAll ["1", "2"] from by decide, h.2.2.2.1]
  decide
